import Mathlib

/-!
Shallow embedding of the docu_learn services
(`content_analyzer.py`, `llm_generator.py`, `learning_orchestrator.py`)
and proofs about the claims of the specification.

Python strings are modelled as `List Char` (wrapped in `String` at the
interfaces), Python `int` as `Int`/`Nat`, Python `float` arithmetic on
scores as exact rationals `ℚ` (rounding to two decimals is modelled as
exact half-up rounding of `100·x`), JSON values as the inductive
`JValue`, and an exception raised by the embedded code as `Option.none`.
External collaborators (the spaCy NLP model, the OpenAI client, the
database/SRS/progress services) are modelled as explicit inputs: the
NLP collaborator's output is a `Doc` of tokens and sentences, and the
LLM collaborator's parsed response is an `Option` that is `none`
whenever the request raised or its body was unparseable.
-/

namespace DocuLearn

/-- The characters `re.split(r'[.!?]+', ·)` splits on. -/
def isSentSep (c : Char) : Bool := c = '.' || c = '!' || c = '?'

/-- ASCII whitespace recognised by Python's `str.split()` / `str.strip()`. -/
def pyIsSpace (c : Char) : Bool :=
  c = ' ' || c = '\t' || c = '\n' || c = '\x0d' || c = '\x0b' || c = '\x0c'

/-- Model of `re.split` on a character class with `+`: splits a string on every
maximal nonempty run of separator characters, keeping the (possibly empty)
chunks at both ends, exactly like `re.split(r'[.!?]+', s)`. Structural
recursion so that concrete inputs evaluate by `decide`/`rfl`. -/
def splitRuns (sep : Char → Bool) : List Char → List (List Char)
  | [] => [[]]
  | c :: cs =>
    if sep c then
      match cs with
      | c2 :: _ => if sep c2 then splitRuns sep cs else [] :: splitRuns sep cs
      | [] => [] :: splitRuns sep cs
    else
      match splitRuns sep cs with
      | [] => [[c]]
      | h :: t => (c :: h) :: t

/-- Python `str.split()` with no argument: the maximal runs of
non-whitespace characters (empty chunks dropped). -/
def pyWords (l : List Char) : List (List Char) :=
  (splitRuns pyIsSpace l).filter (fun w => ¬ w.isEmpty)

/-- Value of `len(text.split())`, the whitespace word count of a Python string. -/
def wordCount (s : String) : Nat := (pyWords s.data).length

/-- Embedding of `ContentAnalyzer._suggest_quiz_count` from
`content_analyzer.py`: step function on the whitespace word count. -/
def suggestQuizCount (text : String) : Nat :=
  let wc := wordCount text
  if wc < 500 then 3
  else if wc < 1500 then 5
  else if wc < 3000 then 8
  else 10

/-- The step function of the spec sentence: boundaries at 500/1500/3000,
values 3/5/8/10. -/
def quizCountStep (w : Nat) : Nat :=
  if w < 500 then 3 else if w < 1500 then 5 else if w < 3000 then 8 else 10

/-- Python `str.strip()` with no argument: drop leading and trailing
whitespace. -/
def pyStrip (l : List Char) : List Char :=
  ((l.dropWhile pyIsSpace).reverse.dropWhile pyIsSpace).reverse

/-- Python `str.lower()` (ASCII case folding, which covers every keyword the
analyzer compares against). -/
def pyLower (l : List Char) : List Char := l.map Char.toLower

/-- Python `str.title()`: the first letter of each alphabetic run is
upper-cased, the rest lower-cased. The boolean argument records whether the
previous character was alphabetic. -/
def pyTitleAux : Bool → List Char → List Char
  | _, [] => []
  | prevAlpha, c :: cs =>
    (if c.isAlpha then (if prevAlpha then c.toLower else c.toUpper) else c)
      :: pyTitleAux c.isAlpha cs

/-- Python `str.title()` on a `String`. -/
def pyTitle (s : String) : String := String.mk (pyTitleAux false s.data)

/-- Python `str.count(sub)` for a nonempty `sub`: number of non-overlapping
occurrences, scanning greedily from the left. Written with explicit fuel
(initialised to the length of the string) so it is structurally recursive and
evaluates on concrete inputs; one unit of fuel is spent per step while at
least one character is consumed, so the fuel never runs out early. -/
def countSubAux (sub : List Char) : Nat → List Char → Nat
  | 0, _ => 0
  | _ + 1, [] => 0
  | fuel + 1, c :: cs =>
    if !sub.isEmpty && sub.isPrefixOf (c :: cs) then
      1 + countSubAux sub fuel ((c :: cs).drop sub.length)
    else
      countSubAux sub fuel cs

/-- Python `str.count(sub)` (non-overlapping substring count). -/
def countSub (sub l : List Char) : Nat := countSubAux sub l.length l

/-- Substring count with overlapping matches counted independently: the
number of positions at which `sub` occurs. This is the counting mode the
spec sentence describes; it is NOT what Python's `str.count` computes. -/
def countSubOverlap (sub l : List Char) : Nat :=
  ((List.range (l.length + 1)).filter (fun i => sub.isPrefixOf (l.drop i))).length

/-- The fixed topic→keywords dictionary of
`ContentAnalyzer._identify_topics`, in declaration order. -/
def topicKeywords : List (String × List String) :=
  [ ("biology", ["cell", "organism", "evolution", "genetics", "ecosystem"])
  , ("chemistry", ["molecule", "atom", "reaction", "compound", "element"])
  , ("physics", ["energy", "force", "motion", "wave", "particle"])
  , ("mathematics", ["equation", "theorem", "proof", "function", "variable"])
  , ("history", ["century", "war", "empire", "revolution", "civilization"])
  , ("literature", ["author", "novel", "poem", "character", "theme"]) ]

/-- Keyword score of one topic: `sum(text_lower.count(keyword) for keyword in
keywords)`, with Python's non-overlapping `str.count`. -/
def topicScore (textLower : List Char) (keywords : List String) : Nat :=
  (keywords.map (fun k => countSub k.data textLower)).sum

/-- Keyword score of one topic under the spec's overlapping counting mode. -/
def topicScoreOverlap (textLower : List Char) (keywords : List String) : Nat :=
  (keywords.map (fun k => countSubOverlap k.data textLower)).sum

/-- The inclusion test of `_identify_topics`:
`sum(text_lower.count(keyword) for keyword in keywords) > 3`. -/
def topicHit (textLower : List Char) (p : String × List String) : Bool :=
  decide (topicScore textLower p.2 > 3)

/-- Embedding of `ContentAnalyzer._identify_topics`: lowercase the text, then
for each topic of the dictionary (in declaration order) append
`topic.title()` when its keyword score exceeds 3. -/
def identifyTopics (text : String) : List String :=
  let textLower := pyLower text.data
  topicKeywords.foldl
    (fun acc p => if topicHit textLower p then acc ++ [pyTitle p.1] else acc)
    []

/-- The three banned lead-ins of `ContentAnalyzer._extract_key_points`. -/
def bannedLeads : List String := ["however", "therefore", "moreover"]

/-- The keep test of `_extract_key_points` on an already-stripped fragment:
length strictly between 20 and 200, and the lowercase form does not start
with a banned lead-in. -/
def keepKeyPoint (s : List Char) : Bool :=
  decide (s.length > 20) && decide (s.length < 200) &&
    !(bannedLeads.any (fun b => List.isPrefixOf b.data (pyLower s)))

/-- Embedding of `ContentAnalyzer._extract_key_points`: split on `[.!?]+`,
look at the first 10 fragments, keep the stripped fragment when its length
is strictly between 20 and 200 and its lowercase form does not start with a
banned lead-in, and return the first 5 survivors. -/
def extractKeyPoints (text : String) : List String :=
  let sentences := splitRuns isSentSep text.data
  let keySentences := (sentences.take 10).foldl
    (fun acc sent =>
      if keepKeyPoint (pyStrip sent) then acc ++ [pyStrip sent] else acc)
    []
  (keySentences.take 5).map String.mk

/-- Python's `round(·, 2)` modelled on exact rationals: round `100·x` to the
nearest integer and divide back. (CPython rounds the underlying double
half-to-even; on the exact values appearing here the two agree except on
exact ties, which none of the claims depend on.) -/
def round2 (q : ℚ) : ℚ := (round (100 * q) : ℤ) / 100

/-- Embedding of `ContentAnalyzer._calculate_readability`: `0.0` for the
empty string, otherwise `clamp(1 - (avg - 10)/20, 0, 1)` rounded to two
decimals, where `avg` is the word count over the number of `[.!?]+`-split
fragments (the `sentences > 0` guard is kept from the source even though the
fragment count is always positive). -/
def calculateReadability (text : String) : ℚ :=
  if text = "" then 0
  else
    let sentences : ℕ := (splitRuns isSentSep text.data).length
    let words : ℕ := (pyWords text.data).length
    let avg : ℚ := if sentences > 0 then (words : ℚ) / (sentences : ℚ) else (words : ℚ)
    round2 (max 0 (min 1 (1 - (avg - 10) / 20)))

/-- Readability formula as the spec states it (for comparison with the
embedding of the source): `clamp(1 - (avg - 10)/20, 0, 1)` rounded to two
decimals with `avg = words / fragments`, no special case. -/
def readabilitySpecFormula (text : String) : ℚ :=
  let fragments : ℕ := (splitRuns isSentSep text.data).length
  let words : ℕ := (pyWords text.data).length
  let avg : ℚ := (words : ℚ) / (fragments : ℚ)
  round2 (max 0 (min 1 (1 - (avg - 10) / 20)))

/-- One token of the NLP collaborator's output: its text and its
alphabetic/punctuation flags (the only attributes `_assess_difficulty`
reads). -/
structure Token where
  text : String
  is_punct : Bool
  is_alpha : Bool

/-- Output of the NLP collaborator on a text: the token stream and the
sentence partition (`doc.sents`). spaCy yields zero sentences for an empty
or whitespace-only text, so `sents` may be empty. -/
structure Doc where
  tokens : List Token
  sents : List (List Token)

/-- Fraction of alphabetic tokens longer than 6 characters
(`complex_words / total_words if total_words > 0 else 0`). -/
def complexityFraction (doc : Doc) : ℚ :=
  let complexWords := (doc.tokens.filter (fun t => t.text.length > 6 && t.is_alpha)).length
  let totalWords := (doc.tokens.filter (fun t => t.is_alpha)).length
  if totalWords > 0 then (complexWords : ℚ) / (totalWords : ℚ) else 0

/-- Embedding of `ContentAnalyzer._assess_difficulty`. The division
`len([token ... if not token.is_punct]) / len(list(doc.sents))` raises
`ZeroDivisionError` when the doc has no sentences; that raise is modelled as
`none`. -/
def assessDifficulty (doc : Doc) : Option String :=
  if doc.sents.length = 0 then none
  else
    let avgSentenceLength : ℚ :=
      ((doc.tokens.filter (fun t => ¬ t.is_punct)).length : ℚ) / (doc.sents.length : ℚ)
    let ratio := complexityFraction doc
    some (if avgSentenceLength > 20 ∨ ratio > 3/10 then "Advanced"
          else if avgSentenceLength > 15 ∨ ratio > 2/10 then "Intermediate"
          else "Basic")

/-- JSON-ish values handled by the quiz validator. `JOther` stands for any
value that is neither a string, an int, nor a list (dict, float, null, …):
the validator only ever tests those three shapes. -/
inductive JValue where
  | JStr : String → JValue
  | JInt : Int → JValue
  | JList : List JValue → JValue
  | JOther : JValue

/-- An untyped record produced by parsing the LLM response: an association
list from field name to value (Python dict with unique keys). -/
def QRecord : Type := List (String × JValue)

/-- Python `dict.get(k)`: `none` when the key is missing. -/
def pyGet (q : QRecord) (k : String) : Option JValue :=
  (List.find? (fun p => p.1 == k) q).map (fun p => p.2)

/-- A validated quiz item as `_validate_quiz` constructs it. The three
defaulted fields keep their raw JSON values (the source does not check their
types). -/
structure QuizItem where
  question : String
  options : List JValue
  correct_answer : Int
  explanation : JValue
  difficulty : JValue
  concept : JValue

/-- Python `isinstance(v, str)` on an optional field value. -/
def isStrVal : Option JValue → Bool
  | some (.JStr _) => true
  | _ => false

/-- Test `isinstance(v, list) and len(v) == 4` on an optional field value. -/
def isList4Val : Option JValue → Bool
  | some (.JList os) => os.length == 4
  | _ => false

/-- Test `isinstance(v, int) and 0 <= v < 4` on an optional field value. -/
def isIntInRangeVal : Option JValue → Bool
  | some (.JInt n) => decide (0 ≤ n) && decide (n < 4)
  | _ => false

/-- The structural check of `_validate_quiz`: `question` is a string,
`options` is a list of length 4, `correct_answer` is an int in `[0, 4)`. -/
def qValid (q : QRecord) : Bool :=
  isStrVal (pyGet q "question") &&
  isList4Val (pyGet q "options") &&
  isIntInRangeVal (pyGet q "correct_answer")

/-- The record `_validate_quiz` appends for a record that passed `qValid`
(the wildcard branches are unreachable for valid records). -/
def mkValidated (q : QRecord) : QuizItem :=
  { question := match pyGet q "question" with | some (.JStr s) => s | _ => ""
  , options := match pyGet q "options" with | some (.JList os) => os | _ => []
  , correct_answer := match pyGet q "correct_answer" with | some (.JInt n) => n | _ => 0
  , explanation := (pyGet q "explanation").getD (.JStr "")
  , difficulty := (pyGet q "difficulty").getD (.JStr "Intermediate")
  , concept := (pyGet q "concept").getD (.JStr "General") }

/-- Embedding of `LLMGenerator._validate_quiz`: fold over the records,
appending the cleaned item when the structural check passes and dropping the
record whole otherwise. Total — validation never raises. -/
def validateQuiz (quizData : List QRecord) : List QuizItem :=
  quizData.foldl (fun acc q => if qValid q then acc ++ [mkValidated q] else acc) []

/-- The single static item of `LLMGenerator._generate_fallback_quiz`. -/
def fallbackQuizItem : QuizItem :=
  { question := "What is the main topic of this document?"
  , options := [.JStr "Topic A", .JStr "Topic B", .JStr "Topic C", .JStr "Topic D"]
  , correct_answer := 0
  , explanation := .JStr "Fallback question generated due to processing error."
  , difficulty := .JStr "Basic"
  , concept := .JStr "General" }

/-- Embedding of `LLMGenerator._generate_fallback_quiz` (the content
argument is unused by the source). -/
def generateFallbackQuiz (_content : String) : List QuizItem := [fallbackQuizItem]

/-- Embedding of `LLMGenerator.generate_quiz` after the prompt is built: the
collaborator input is the parsed JSON array of the LLM response, or `none`
when the request raised or `json.loads` failed; every failure is caught and
replaced by the fallback quiz. -/
def generateQuiz (llmResponse : Option (List QRecord)) (content : String) : List QuizItem :=
  match llmResponse with
  | some quizData => validateQuiz quizData
  | none => generateFallbackQuiz content

/-- A summary record (`generate_summary` result shape). -/
structure Summary where
  overview : String
  main_points : List String
  key_takeaways : List String
  complexity_level : String

/-- Embedding of `LLMGenerator._generate_fallback_summary`. -/
def generateFallbackSummary (content : String) : Summary :=
  { overview := "This document contains approximately " ++ toString (wordCount content)
      ++ " words of educational content."
  , main_points := ["Content processing in progress"]
  , key_takeaways := ["Please try again later"]
  , complexity_level := "Unknown" }

/-- Embedding of `LLMGenerator.generate_summary`: a successfully parsed
response is returned as-is (the source performs no validation on it), any
failure yields the static fallback. -/
def generateSummary (llmResponse : Option Summary) (content : String) : Summary :=
  match llmResponse with
  | some s => s
  | none => generateFallbackSummary content

/-- A stored quiz question as `process_quiz_attempt` reads it from the
database collaborator: `question['correct_answer']` and
`question.get('explanation', '')`. -/
structure StoredQuestion where
  correct_answer : Int
  explanation : String

/-- One per-question result record of `process_quiz_attempt`. -/
structure QuizResult where
  question_id : Nat
  user_answer : Int
  correct_answer : Int
  is_correct : Bool
  explanation : String

/-- The recommendation record of `_determine_next_action`. -/
structure NextAction where
  action : String
  message : String

/-- Embedding of `LearningOrchestrator._determine_next_action`. -/
def determineNextAction (score : ℚ) : NextAction :=
  if score ≥ 90 then ⟨"advance", "Excellent! Ready for new material."⟩
  else if score ≥ 70 then ⟨"review_weak", "Good job! Review weak areas before advancing."⟩
  else ⟨"repeat", "Practice more with this material before advancing."⟩

/-- The result list built by the `for i, (question, user_answer) in
enumerate(zip(quiz_questions, answers))` loop of `process_quiz_attempt`. -/
def quizResults (questions : List StoredQuestion) (answers : List Int) : List QuizResult :=
  (questions.zip answers).enum.map (fun p =>
    { question_id := p.1
    , user_answer := p.2.2
    , correct_answer := p.2.1.correct_answer
    , is_correct := p.2.1.correct_answer == p.2.2
    , explanation := p.2.1.explanation })

/-- The aggregate returned by `process_quiz_attempt` (the fields computed
locally; collaborator-produced fields such as `next_review` are outside the
embedding). -/
structure AttemptOutcome where
  score : ℚ
  correct_answers : Nat
  total_questions : Nat
  results : List QuizResult
  next_action : NextAction

/-- Embedding of the computational core of
`LearningOrchestrator.process_quiz_attempt`: build the per-question results
from `zip(quiz_questions, answers)`, count the correct ones, and score with
the FULL question count as denominator; `score = (correct / len(quiz_questions)) * 100`
raises `ZeroDivisionError` on an empty question list, modelled as `none`. -/
def processQuizAttempt (questions : List StoredQuestion) (answers : List Int) :
    Option AttemptOutcome :=
  let results := quizResults questions answers
  let correct := (results.filter (fun r => r.is_correct)).length
  if questions.length = 0 then none
  else
    let score : ℚ := ((correct : ℚ) / (questions.length : ℚ)) * 100
    some { score := score
         , correct_answers := correct
         , total_questions := questions.length
         , results := results
         , next_action := determineNextAction score }

/-! ## Helper lemmas -/

/-- Lemma that `splitRuns` never returns the empty list of chunks (a Python
`re.split` result always has at least one element). -/
theorem splitRuns_ne_nil (sep : Char → Bool) (l : List Char) :
    splitRuns sep l ≠ [] := by
  induction l with
  | nil => simp [splitRuns]
  | cons c cs ih =>
    unfold splitRuns
    by_cases h : sep c <;> simp [h]
    · match cs with
      | [] => simp
      | c2 :: cs' =>
        by_cases h2 : sep c2 <;> simp [h2]
        exact ih
    · match hr : splitRuns sep cs with
      | [] => exact absurd hr ih
      | h' :: t => simp

/-- A left fold that appends `g x` whenever `c x` holds collects exactly the
map of `g` over the filtered list, after the initial accumulator. -/
theorem foldl_append_if {α β : Type} (c : α → Bool) (g : α → β) :
    ∀ (l : List α) (init : List β),
      l.foldl (fun acc x => if c x then acc ++ [g x] else acc) init
        = init ++ (l.filter c).map g := by
  intro l
  induction l with
  | nil => intro init; simp
  | cons x xs ih =>
    intro init
    by_cases h : c x <;> simp [h, ih]

/-! ## Claims -/

/-- C5: `_suggest_quiz_count` is the step function of the whitespace word
count with boundaries 500/1500/3000 and values 3/5/8/10, and that step
function is non-decreasing. -/
theorem c5_suggest_quiz_count_step :
    (∀ text : String, suggestQuizCount text = quizCountStep (wordCount text)) ∧
    (∀ w1 w2 : ℕ, w1 ≤ w2 → quizCountStep w1 ≤ quizCountStep w2) := by
  constructor
  · intro text
    simp [suggestQuizCount, quizCountStep]
  · intro w1 w2 h
    unfold quizCountStep
    split_ifs <;> omega

/-- Witness for C5 at word counts 400 and 1000. -/
theorem c5_suggest_quiz_count_step_witness :
    (400 : ℕ) ≤ 1000 ∧ quizCountStep 400 ≤ quizCountStep 1000 :=
  ⟨by decide, c5_suggest_quiz_count_step.2 400 1000 (by decide)⟩

/-- C7: on any LLM failure (raise or unparseable response), `generate_quiz`
returns exactly the one static fallback item, whose `correct_answer` is 0
and whose `difficulty` is `'Basic'`. -/
theorem c7_generate_quiz_fallback :
    ∀ content : String,
      generateQuiz none content = [fallbackQuizItem] ∧
      (generateQuiz none content).length = 1 ∧
      fallbackQuizItem.correct_answer = 0 ∧
      fallbackQuizItem.difficulty = .JStr "Basic" := by
  intro content
  refine ⟨rfl, rfl, rfl, rfl⟩

/-- C9 counterexample: the claim "every Summary returned by
`generate_summary`, including the static fallback, has a `complexity_level`
in {Basic, Intermediate, Advanced}" is false at the fallback itself: when
the LLM collaborator raises, the returned summary's `complexity_level` is
`'Unknown'`, which is not in the enum. -/
theorem c9_counterexample_fallback_unknown :
    (generateSummary none "some educational content").complexity_level = "Unknown" ∧
    "Unknown" ∉ (["Basic", "Intermediate", "Advanced"] : List String) := by
  exact ⟨rfl, by decide⟩

/-- C9 amended: on LLM failure `generate_summary` returns exactly the static
fallback summary, whose `complexity_level` is the string `'Unknown'` — a
value outside the enum {Basic, Intermediate, Advanced}; a successfully
parsed response is returned as-is, without any validation of its
`complexity_level`. -/
theorem c9_amended_summary_complexity :
    ∀ (content : String) (resp : Summary),
      generateSummary none content = generateFallbackSummary content ∧
      (generateFallbackSummary content).complexity_level = "Unknown" ∧
      "Unknown" ∉ (["Basic", "Intermediate", "Advanced"] : List String) ∧
      generateSummary (some resp) content = resp := by
  intro content resp
  exact ⟨rfl, rfl, by decide, rfl⟩

/-- C3 counterexample: the claim "the difficulty assessment's division is
always defined (sentence_count is never zero, including for empty or
sentence-less text)" is false: on the document the NLP collaborator produces
for empty text — no tokens, no sentences — the sentence count is 0 and the
division raises `ZeroDivisionError` (modelled as `none`). -/
theorem c3_counterexample_empty_doc :
    (Doc.mk [] []).sents.length = 0 ∧ assessDifficulty (Doc.mk [] []) = none := by
  exact ⟨rfl, rfl⟩

/-- C3 amended: `_assess_difficulty` completes exactly when the NLP document
has at least one sentence (it raises `ZeroDivisionError` on a zero-sentence
document, e.g. for empty text), and the complexity ratio is 0 when the
document has no alphabetic tokens. -/
theorem c3_amended_difficulty_safety :
    ∀ doc : Doc,
      (doc.sents.length ≠ 0 → ∃ s, assessDifficulty doc = some s) ∧
      (doc.sents.length = 0 → assessDifficulty doc = none) ∧
      ((doc.tokens.filter (fun t => t.is_alpha)).length = 0 →
        complexityFraction doc = 0) := by
  intro doc
  refine ⟨fun h => ?_, fun h => by simp [assessDifficulty, h], fun h => ?_⟩
  · unfold assessDifficulty
    simp only [h, if_false]
    exact ⟨_, rfl⟩
  · unfold complexityFraction
    simp [h]

/-- Witness for C3 amended: a document with one (empty) sentence and no
tokens is assessed successfully, and with no alphabetic tokens its
complexity ratio is 0. -/
theorem c3_amended_difficulty_safety_witness :
    ((Doc.mk [] [[]]).sents.length ≠ 0 ∧ ∃ s, assessDifficulty (Doc.mk [] [[]]) = some s) ∧
    (((Doc.mk [] [[]]).tokens.filter (fun t => t.is_alpha)).length = 0 ∧
      complexityFraction (Doc.mk [] [[]]) = 0) :=
  ⟨⟨by decide, (c3_amended_difficulty_safety (Doc.mk [] [[]])).1 (by decide)⟩,
   ⟨by decide, (c3_amended_difficulty_safety (Doc.mk [] [[]])).2.2 (by decide)⟩⟩

/-- Characterization of the topic-identification fold: the topics are the
title-cased names of the dictionary entries whose keyword score exceeds 3,
in declaration order. -/
theorem identifyTopics_eq_filter (text : String) :
    identifyTopics text =
      (topicKeywords.filter (topicHit (pyLower text.data))).map (fun p => pyTitle p.1) := by
  unfold identifyTopics
  rw [foldl_append_if (topicHit (pyLower text.data)) (fun p => pyTitle p.1)]
  simp

/-- C4 counterexample: the claim counts keyword occurrences with overlapping
matches counted independently, but Python's `str.count` is non-overlapping.
In `"empirempirempirempire"` the keyword `"empire"` occurs at 4 overlapping
positions (sum > 3, so the claim demands `"History"` among the topics), yet
the code's non-overlapping count is 2 and no topic is returned. -/
theorem c4_counterexample_overlapping_count :
    topicScoreOverlap (pyLower "empirempirempirempire".data)
        ["century", "war", "empire", "revolution", "civilization"] > 3 ∧
    ("history", ["century", "war", "empire", "revolution", "civilization"]) ∈ topicKeywords ∧
    pyTitle "history" = "History" ∧
    identifyTopics "empirempirempirempire" = [] := by
  refine ⟨by decide, by decide, by decide, by decide⟩

/-- C4 amended: a topic is included exactly when the sum over its 5 keywords
of Python's NON-overlapping `str.count` in the lowercased text is strictly
greater than 3, and the returned topics follow the dictionary's declaration
order (title-cased); a text where `"cell"` occurs 4 times (non-overlapping
count) and no other biology keyword occurs yields `"Biology"`. -/
theorem c4_amended_identify_topics :
    (∀ text : String,
      identifyTopics text =
        (topicKeywords.filter
          (fun p => decide (topicScore (pyLower text.data) p.2 > 3))).map
          (fun p => pyTitle p.1)) ∧
    (∀ text : String,
      countSub "cell".data (pyLower text.data) = 4 →
      (∀ k ∈ (["organism", "evolution", "genetics", "ecosystem"] : List String),
        countSub k.data (pyLower text.data) = 0) →
      "Biology" ∈ identifyTopics text) := by
  constructor
  · intro text
    rw [identifyTopics_eq_filter]
    rfl
  · intro text h1 h2
    rw [identifyTopics_eq_filter]
    refine List.mem_map.mpr
      ⟨("biology", ["cell", "organism", "evolution", "genetics", "ecosystem"]), ?_, by decide⟩
    refine List.mem_filter.mpr ⟨by decide, ?_⟩
    simp only [topicHit, topicScore, List.map_cons, List.map_nil, List.sum_cons,
      List.sum_nil, decide_eq_true_eq]
    rw [h1, h2 "organism" (by simp), h2 "evolution" (by simp),
      h2 "genetics" (by simp), h2 "ecosystem" (by simp)]
    norm_num

/-- Witness for C4 amended at the text `"cell cell cell cell"`. -/
theorem c4_amended_identify_topics_witness :
    countSub "cell".data (pyLower "cell cell cell cell".data) = 4 ∧
    (∀ k ∈ (["organism", "evolution", "genetics", "ecosystem"] : List String),
      countSub k.data (pyLower "cell cell cell cell".data) = 0) ∧
    "Biology" ∈ identifyTopics "cell cell cell cell" :=
  ⟨by decide, by decide,
    c4_amended_identify_topics.2 "cell cell cell cell" (by decide) (by decide)⟩

/-- C6: `_extract_key_points` returns the first at most 5 of the stripped
fragments among the first 10 `[.!?]+`-split fragments whose length lies
strictly between 20 and 200 and which do not start (case-insensitively)
with a banned lead-in, in original order; consequently the result has at
most 5 items, each of length in `[21, 199]`, none starting with a banned
lead-in. -/
theorem c6_extract_key_points :
    ∀ text : String,
      extractKeyPoints text =
        ((((splitRuns isSentSep text.data).take 10).filter
            (fun s => keepKeyPoint (pyStrip s))).map
            (fun s => String.mk (pyStrip s))).take 5 ∧
      (extractKeyPoints text).length ≤ 5 ∧
      (∀ p ∈ extractKeyPoints text,
        20 < p.length ∧ p.length < 200 ∧
        bannedLeads.any (fun b => List.isPrefixOf b.data (pyLower p.data)) = false) := by
  intro text
  have hchar : extractKeyPoints text =
      ((((splitRuns isSentSep text.data).take 10).filter
          (fun s => keepKeyPoint (pyStrip s))).map
          (fun s => String.mk (pyStrip s))).take 5 := by
    unfold extractKeyPoints
    dsimp only
    rw [foldl_append_if (fun s => keepKeyPoint (pyStrip s)) (fun s => pyStrip s)]
    simp only [List.nil_append, List.map_take, List.map_map]
    rfl
  refine ⟨hchar, ?_, ?_⟩
  · rw [hchar]; exact List.length_take_le 5 _
  · intro p hp
    rw [hchar] at hp
    obtain ⟨s, hs, hps⟩ := List.mem_map.mp (List.mem_of_mem_take hp)
    have hkeep : keepKeyPoint (pyStrip s) = true := (List.mem_filter.mp hs).2
    have hlen : p.length = (pyStrip s).length := by
      rw [← hps]; rfl
    have hdata : p.data = pyStrip s := by rw [← hps]
    simp only [keepKeyPoint, Bool.and_eq_true, decide_eq_true_eq,
      Bool.not_eq_true'] at hkeep
    exact ⟨by rw [hlen]; exact hkeep.1.1, by rw [hlen]; exact hkeep.1.2,
      by rw [hdata]; exact hkeep.2⟩

/-- Witness for C6: a concrete text with one kept fragment. -/
theorem c6_extract_key_points_witness :
    "This fragment is long enough to keep around" ∈
      extractKeyPoints "This fragment is long enough to keep around. tiny." ∧
    (20 < ("This fragment is long enough to keep around" : String).length ∧
      ("This fragment is long enough to keep around" : String).length < 200 ∧
      bannedLeads.any (fun b => List.isPrefixOf b.data
        (pyLower ("This fragment is long enough to keep around" : String).data)) = false) :=
  ⟨by decide,
    (c6_extract_key_points "This fragment is long enough to keep around. tiny.").2.2
      "This fragment is long enough to keep around" (by decide)⟩

/-- Shape of `isStrVal`: it accepts exactly the string values. -/
theorem isStrVal_iff (v : Option JValue) :
    isStrVal v = true ↔ ∃ s, v = some (.JStr s) := by
  cases v with
  | none => simp [isStrVal]
  | some w => cases w <;> simp [isStrVal]

/-- Shape of `isList4Val`: it accepts exactly the 4-element list values. -/
theorem isList4Val_iff (v : Option JValue) :
    isList4Val v = true ↔ ∃ os, v = some (.JList os) ∧ os.length = 4 := by
  cases v with
  | none => simp [isList4Val]
  | some w => cases w <;> simp [isList4Val]

/-- Shape of `isIntInRangeVal`: it accepts exactly the ints in `[0, 4)`. -/
theorem isIntInRangeVal_iff (v : Option JValue) :
    isIntInRangeVal v = true ↔ ∃ n, v = some (.JInt n) ∧ 0 ≤ n ∧ n < 4 := by
  cases v with
  | none => simp [isIntInRangeVal]
  | some w => cases w <;> simp [isIntInRangeVal]

/-- C1: `_validate_quiz` keeps a record iff its `question` is a string, its
`options` a list of exactly 4 entries, and its `correct_answer` an integer
in `[0, 4)`; kept records get defaults `''`/`'Intermediate'`/`'General'`
for missing `explanation`/`difficulty`/`concept`; failing records are
dropped whole; the output is never longer than the input. (Validation never
raises: the embedding is a total function.) -/
theorem c1_validate_quiz :
    ∀ input : List QRecord,
      validateQuiz input = (input.filter qValid).map mkValidated ∧
      (validateQuiz input).length ≤ input.length ∧
      (∀ q : QRecord, qValid q = true ↔
        ((∃ s, pyGet q "question" = some (.JStr s)) ∧
         (∃ os, pyGet q "options" = some (.JList os) ∧ os.length = 4) ∧
         (∃ n, pyGet q "correct_answer" = some (.JInt n) ∧ 0 ≤ n ∧ n < 4))) ∧
      (∀ q : QRecord,
        (pyGet q "explanation" = none → (mkValidated q).explanation = .JStr "") ∧
        (pyGet q "difficulty" = none → (mkValidated q).difficulty = .JStr "Intermediate") ∧
        (pyGet q "concept" = none → (mkValidated q).concept = .JStr "General")) := by
  intro input
  have hchar : validateQuiz input = (input.filter qValid).map mkValidated := by
    unfold validateQuiz
    rw [foldl_append_if qValid mkValidated]
    simp
  refine ⟨hchar, ?_, ?_, ?_⟩
  · rw [hchar]
    calc ((input.filter qValid).map mkValidated).length
        = (input.filter qValid).length := List.length_map _ _
      _ ≤ input.length := List.length_filter_le _ _
  · intro q
    simp only [qValid, Bool.and_eq_true, isStrVal_iff, isList4Val_iff, isIntInRangeVal_iff]
    tauto
  · intro q
    refine ⟨fun h => ?_, fun h => ?_, fun h => ?_⟩ <;>
      simp [mkValidated, h]

/-- Witness for C1 at a concrete minimal valid record with no
`explanation`/`difficulty`/`concept` fields. -/
theorem c1_validate_quiz_witness :
    pyGet [("question", JValue.JStr "What is 2+2?"),
           ("options", JValue.JList [.JStr "1", .JStr "2", .JStr "3", .JStr "4"]),
           ("correct_answer", JValue.JInt 3)] "explanation" = none ∧
    (mkValidated [("question", JValue.JStr "What is 2+2?"),
           ("options", JValue.JList [.JStr "1", .JStr "2", .JStr "3", .JStr "4"]),
           ("correct_answer", JValue.JInt 3)]).explanation = .JStr "" ∧
    qValid [("question", JValue.JStr "What is 2+2?"),
           ("options", JValue.JList [.JStr "1", .JStr "2", .JStr "3", .JStr "4"]),
           ("correct_answer", JValue.JInt 3)] = true :=
  ⟨rfl,
    ((c1_validate_quiz []).2.2.2 [("question", JValue.JStr "What is 2+2?"),
        ("options", JValue.JList [.JStr "1", .JStr "2", .JStr "3", .JStr "4"]),
        ("correct_answer", JValue.JInt 3)]).1 rfl,
    ((c1_validate_quiz []).2.2.1 [("question", JValue.JStr "What is 2+2?"),
        ("options", JValue.JList [.JStr "1", .JStr "2", .JStr "3", .JStr "4"]),
        ("correct_answer", JValue.JInt 3)]).mpr
      ⟨⟨"What is 2+2?", rfl⟩, ⟨[.JStr "1", .JStr "2", .JStr "3", .JStr "4"], rfl, rfl⟩,
        ⟨3, rfl, by decide, by decide⟩⟩⟩

/-- Bounds for rounding to two decimals: `round2` maps `[0, 1]` into
`[0, 1]`. -/
theorem round2_mem_unit {q : ℚ} (h0 : 0 ≤ q) (h1 : q ≤ 1) :
    0 ≤ round2 q ∧ round2 q ≤ 1 := by
  unfold round2
  have hfl0 : (0 : ℤ) ≤ round (100 * q) := by
    rw [round_eq]
    exact Int.floor_nonneg.mpr (by linarith)
  have hfl1 : round (100 * q) ≤ 100 := by
    rw [round_eq]
    exact Int.floor_le_iff.mpr (by push_cast; linarith)
  constructor
  · exact div_nonneg (by exact_mod_cast hfl0) (by norm_num)
  · rw [div_le_one (by norm_num : (0 : ℚ) < 100)]
    exact_mod_cast hfl1

/-- C2: `_calculate_readability` returns exactly 0 for the empty string; for
every non-empty text it returns `clamp(1 - (avg - 10)/20, 0, 1)` rounded to
2 decimals with `avg = word count / number of [.!?]+ fragments`; and the
result always lies in `[0, 1]`. -/
theorem c2_calculate_readability :
    calculateReadability "" = 0 ∧
    (∀ text : String,
      0 ≤ calculateReadability text ∧ calculateReadability text ≤ 1) ∧
    (∀ text : String, text ≠ "" →
      calculateReadability text = readabilitySpecFormula text) := by
  refine ⟨by simp [calculateReadability], ?_, ?_⟩
  · intro text
    by_cases h : text = ""
    · simp [calculateReadability, h]
    · unfold calculateReadability
      rw [if_neg h]
      exact round2_mem_unit (le_max_left _ _) (max_le (by norm_num) (min_le_left _ _))
  · intro text h
    unfold calculateReadability readabilitySpecFormula
    rw [if_neg h]
    have hpos : 0 < (splitRuns isSentSep text.data).length :=
      List.length_pos.mpr (splitRuns_ne_nil _ _)
    simp [hpos]

/-- Witness for C2 at the non-empty text `"ab."`. -/
theorem c2_calculate_readability_witness :
    ("ab." : String) ≠ "" ∧
    calculateReadability "ab." = readabilitySpecFormula "ab." :=
  ⟨by decide, c2_calculate_readability.2.2 "ab." (by decide)⟩

/-- C8: `process_quiz_attempt` scores `correct / total * 100` and the next
action is `advance` for score ≥ 90, `review_weak` for 70 ≤ score < 90,
`repeat` below 70 (first match wins); in particular 95 → advance,
75 → review_weak, 50 → repeat. -/
theorem c8_process_quiz_attempt :
    (∀ (questions : List StoredQuestion) (answers : List Int),
      questions ≠ [] →
      ∃ out, processQuizAttempt questions answers = some out ∧
        out.score = (((quizResults questions answers).filter
            (fun r => r.is_correct)).length : ℚ) / (questions.length : ℚ) * 100 ∧
        out.next_action = determineNextAction out.score ∧
        out.next_action.action =
          (if out.score ≥ 90 then "advance"
           else if out.score ≥ 70 then "review_weak" else "repeat")) ∧
    (determineNextAction 95).action = "advance" ∧
    (determineNextAction 75).action = "review_weak" ∧
    (determineNextAction 50).action = "repeat" := by
  constructor
  · intro questions answers h
    have hlen : questions.length ≠ 0 := by
      simpa [List.length_eq_zero] using h
    unfold processQuizAttempt
    dsimp only
    rw [if_neg hlen]
    refine ⟨_, rfl, rfl, rfl, ?_⟩
    unfold determineNextAction
    split_ifs <;> rfl
  · refine ⟨?_, ?_, ?_⟩ <;> norm_num [determineNextAction]

/-- Witness for C8 at one question answered correctly. -/
theorem c8_process_quiz_attempt_witness :
    ([⟨0, "e"⟩] : List StoredQuestion) ≠ [] ∧
    ∃ out, processQuizAttempt [⟨0, "e"⟩] [0] = some out ∧
      out.score = (((quizResults [⟨0, "e"⟩] [0]).filter
          (fun r => r.is_correct)).length : ℚ) /
        (([⟨0, "e"⟩] : List StoredQuestion).length : ℚ) * 100 ∧
      out.next_action = determineNextAction out.score ∧
      out.next_action.action =
        (if out.score ≥ 90 then "advance"
         else if out.score ≥ 70 then "review_weak" else "repeat") :=
  ⟨by simp, c8_process_quiz_attempt.1 [⟨0, "e"⟩] [0] (by simp)⟩

/-- C10: `process_quiz_attempt` evaluates only the zipped prefix of
question/answer pairs (the results list has `min(len(questions),
len(answers))` entries; with fewer answers than questions only the first
`len(answers)` pairs are evaluated), the score denominator is the full
question count, and for a non-empty question list the score lies in
`[0, 100]`. -/
theorem c10_partial_answers :
    ∀ (questions : List StoredQuestion) (answers : List Int),
      (quizResults questions answers).length = min questions.length answers.length ∧
      (answers.length < questions.length →
        (quizResults questions answers).length = answers.length) ∧
      (questions ≠ [] →
        ∃ out, processQuizAttempt questions answers = some out ∧
          out.total_questions = questions.length ∧
          out.results = quizResults questions answers ∧
          out.correct_answers ≤ min questions.length answers.length ∧
          0 ≤ out.score ∧ out.score ≤ 100) := by
  intro questions answers
  have hres : (quizResults questions answers).length
      = min questions.length answers.length := by
    unfold quizResults
    simp [List.enum_length, List.length_zip]
  refine ⟨hres, fun h => by rw [hres]; omega, fun h => ?_⟩
  have hlen : questions.length ≠ 0 := by
    simpa [List.length_eq_zero] using h
  have hcorr : ((quizResults questions answers).filter
      (fun r => r.is_correct)).length ≤ min questions.length answers.length := by
    rw [← hres]
    exact List.length_filter_le _ _
  unfold processQuizAttempt
  dsimp only
  rw [if_neg hlen]
  refine ⟨_, rfl, rfl, rfl, hcorr, ?_, ?_⟩
  · positivity
  · have hc : (((quizResults questions answers).filter
        (fun r => r.is_correct)).length : ℚ) ≤ (questions.length : ℚ) := by
      exact_mod_cast le_trans hcorr (min_le_left _ _)
    have hq0 : (0 : ℚ) < (questions.length : ℚ) := by
      exact_mod_cast Nat.pos_of_ne_zero hlen
    calc (((quizResults questions answers).filter
          (fun r => r.is_correct)).length : ℚ) / (questions.length : ℚ) * 100
        ≤ (questions.length : ℚ) / (questions.length : ℚ) * 100 := by gcongr
      _ = 100 := by rw [div_self (ne_of_gt hq0)]; ring

/-- Witness for C10: two questions, one answer. -/
theorem c10_partial_answers_witness :
    ((([0] : List Int)).length < ([⟨0, "e"⟩, ⟨1, "f"⟩] : List StoredQuestion).length ∧
      (quizResults [⟨0, "e"⟩, ⟨1, "f"⟩] [0]).length = (([0] : List Int)).length) ∧
    (([⟨0, "e"⟩, ⟨1, "f"⟩] : List StoredQuestion) ≠ [] ∧
      ∃ out, processQuizAttempt [⟨0, "e"⟩, ⟨1, "f"⟩] [0] = some out ∧
        out.total_questions = ([⟨0, "e"⟩, ⟨1, "f"⟩] : List StoredQuestion).length ∧
        out.results = quizResults [⟨0, "e"⟩, ⟨1, "f"⟩] [0] ∧
        out.correct_answers ≤ min ([⟨0, "e"⟩, ⟨1, "f"⟩] : List StoredQuestion).length
          (([0] : List Int)).length ∧
        0 ≤ out.score ∧ out.score ≤ 100) :=
  ⟨⟨by simp, (c10_partial_answers [⟨0, "e"⟩, ⟨1, "f"⟩] [0]).2.1 (by simp)⟩,
   ⟨by simp, (c10_partial_answers [⟨0, "e"⟩, ⟨1, "f"⟩] [0]).2.2 (by simp)⟩⟩

end DocuLearn
